import Mathlib

/-!
Shallow embedding of the trrackspace client library (Rackspace Identity and
Cloudfiles services) together with theorems checking its natural-language
specification.  Python source files are translated function by function:
stateful methods become explicit state-passing functions, the HTTP transport
becomes an explicit response argument, fallible code returns `Except`, and
Python dictionaries become association lists with Python `dict` semantics.
-/

namespace Trrackspace

/-- Error taxonomy of `trrackspace/errors.py` and
`trrackspace/services/cloudfiles/errors.py`.

* `responseError s` models `ResponseError` produced by the `to_error`
  decorator from an uncaught `trhttp` `HttpError`, carrying the HTTP status.
* `noSuchObject`, `noSuchContainer`, `containerNotEmpty` model the
  domain-specific `RackspaceError` subclasses.
* `valueError m` models a Python `ValueError` raised before any network call
  (wrapped by `to_error` into a generic `RackspaceError`).
* `nameErrorHeader` models the Python `NameError` raised by
  `StorageObject.write` when it references the undefined variable `header`
  (wrapped by `to_error` into a generic `RackspaceError`).
* `badHash` models the `RuntimeError("Bad hash")` integrity failure raised by
  `StorageObject.write` (wrapped by `to_error` into a generic
  `RackspaceError`, not a `ResponseError`). -/
inductive Err where
  | responseError (status : Nat)
  | noSuchObject (name : String)
  | noSuchContainer (name : String)
  | containerNotEmpty
  | valueError (msg : String)
  | nameErrorHeader
  | badHash
  deriving Repr, DecidableEq

/-- A `trhttp` `HttpError`: the structured error the transport raises for any
non-2xx response, carrying the HTTP status. -/
structure HttpErr where
  status : Nat
  deriving Repr, DecidableEq

/-- An HTTP response supplied by the (external) transport: status, response
headers as (name, value) pairs, and a body. -/
structure HttpResp where
  status : Nat
  headers : List (String × String)
  body : String
  deriving Repr, DecidableEq

/-- Whether a status code is a success (2xx) status. -/
def is2xx (s : Nat) : Bool := 200 ≤ s && s < 300

/-- Transport semantics of `send_request`: a 2xx response is returned to the
caller, any other status surfaces as an `HttpErr` exception. -/
def sendRequest (resp : HttpResp) : Except HttpErr HttpResp :=
  if is2xx resp.status then .ok resp else .error ⟨resp.status⟩

/-- Python `str.lower()` (ASCII semantics, as used on header names). -/
def pyLower (s : String) : String := ⟨s.data.map Char.toLower⟩

/-- `pat.isPrefixOf subj` on character lists, mirroring Python
`subj.startswith(pat)`. -/
def listStarts : List Char → List Char → Bool
  | [], _ => true
  | _ :: _, [] => false
  | c :: cs, d :: ds => c = d && listStarts cs ds

/-- Python `s.startswith(p)`. -/
def pyStarts (s p : String) : Bool := listStarts p.data s.data

/-- Python `dict.get(k)` on an association list. -/
def dictGet (d : List (String × String)) (k : String) : Option String :=
  (d.find? (fun p => p.1 = k)).map Prod.snd

/-- Python `dict.pop(k, None)` on an association list: removes the binding of
`k` if present. -/
def dictPop (d : List (String × String)) (k : String) : List (String × String) :=
  d.filter (fun p => p.1 ≠ k)

/-- Python `dict[k] = v` on an association list: updates the binding of `k`
in place if present, otherwise appends it. -/
def dictSet (d : List (String × String)) (k v : String) : List (String × String) :=
  if d.any (fun p => p.1 = k) then
    d.map (fun p => if p.1 = k then (k, v) else p)
  else
    d ++ [(k, v)]

/-! ## Container (`trrackspace/services/cloudfiles/container.py`) -/

/-- Cached state of a `Container` object.  The fields `cdn_uri_cache`,
`cdn_ssl_uri_cache` and `cdn_streaming_uri_cache` embed the Python attributes
`_cdn_uri`, `_cdn_ssl_uri` and `_cdn_streaming_uri`; a Python value of `None`
is `Option.none`. -/
structure Container where
  name : String
  cdn_enabled : Bool
  count : Nat
  size : Nat
  metadata : List (String × String)
  cdn_uri_cache : Option String
  cdn_ssl_uri_cache : Option String
  cdn_streaming_uri_cache : Option String
  deriving Repr, DecidableEq

/-- `Container.cdn_uri` property: returns `_cdn_uri` when `cdn_enabled`,
else `None`. -/
def Container.cdn_uri (c : Container) : Option String :=
  if c.cdn_enabled then c.cdn_uri_cache else none

/-- `Container.cdn_ssl_uri` property: returns `_cdn_ssl_uri` when
`cdn_enabled`, else `None`. -/
def Container.cdn_ssl_uri (c : Container) : Option String :=
  if c.cdn_enabled then c.cdn_ssl_uri_cache else none

/-- `Container.cdn_streaming_uri` property: returns `_cdn_streaming_uri` when
`cdn_enabled`, else `None`. -/
def Container.cdn_streaming_uri (c : Container) : Option String :=
  if c.cdn_enabled then c.cdn_streaming_uri_cache else none

/-- `Container.delete_object(name)`: issues a DELETE for the object path; a
404 from the transport is upgraded to `NoSuchObject`; any other `HttpError`
caught by the `except` clause is silently swallowed (the `if` has no `else`
and the handler does not re-raise), so the method returns normally. -/
def delete_object (name : String) (resp : HttpResp) : Except Err Unit :=
  match sendRequest resp with
  | .ok _ => .ok ()
  | .error e => if e.status = 404 then .error (.noSuchObject name) else .ok ()

/-- `Container.delete()`: issues a DELETE for the container path; 404 is
upgraded to `NoSuchContainer` and 409 to `ContainerNotEmpty`; any other
`HttpError` is swallowed by the handler. -/
def Container.delete (name : String) (resp : HttpResp) : Except Err Unit :=
  match sendRequest resp with
  | .ok _ => .ok ()
  | .error e =>
    if e.status = 404 then .error (.noSuchContainer name)
    else if e.status = 409 then .error .containerNotEmpty
    else .ok ()

/-- An entry returned by `Container.list_objects`: only the `name` field is
consumed by the pagination loop, the remaining info fields are kept abstract
as `info`. -/
structure ListEntry where
  name : String
  info : String
  deriving Repr, DecidableEq

/-- `Container.list_all_objects(prefix?, delimiter?, batch_size)`: repeatedly
invokes `list_objects` (modelled by `backend`, a function of the `marker`
parameter; `prefix`, `delimiter` and `limit=batch_size` are constant across
calls and folded into `backend`), yields each returned entry, stops when a
batch is shorter than `batch_size`, and otherwise advances `marker` to the
last entry's name.  The Python generator loop is embedded with explicit
`fuel`; the result records the yielded entries in order, the `marker`
argument of each underlying `list_objects` call in order, and whether the
loop reached its `break` (`true`) or ran out of fuel (`false`). -/
def list_all_objects (backend : Option String → List ListEntry) (batch_size : Nat) :
    Nat → Option String → List ListEntry × List (Option String) × Bool
  | 0, _ => ([], [], false)
  | fuel + 1, marker =>
    let objects := backend marker
    if objects.length < batch_size then
      (objects, [marker], true)
    else
      match objects.getLast? with
      | none => (objects, [marker], false)
      | some last =>
        let rest := list_all_objects backend batch_size fuel (some last.name)
        (objects ++ rest.1, marker :: rest.2.1, rest.2.2)

/-- Result of an `update_metadata` call: the outcome, the cached metadata map
after the call, and the number of network requests issued. -/
structure MetaOutcome where
  outcome : Except Err Unit
  cache : List (String × String)
  requests : Nat
  deriving Repr

/-- The slice `key[:2] + key[9:]` used by `update_metadata` to turn an
`x-remove-...-meta-` key into the corresponding cache key. -/
def stripRemove (k : String) : String := ⟨k.data.take 2 ++ k.data.drop 9⟩

/-- The cache-merge loop shared by `Container.update_metadata` and
`StorageObject.update_metadata`: for each update pair in order, a key whose
lower-casing starts with `x-remove-` pops `key[:2] + key[9:]` from the cache,
any other key is upserted with its value. -/
def applyMetaUpdates (cache : List (String × String))
    (updates : List (String × String)) : List (String × String) :=
  updates.foldl
    (fun acc kv =>
      if pyStarts (pyLower kv.1) "x-remove-" then dictPop acc (stripRemove kv.1)
      else dictSet acc kv.1 kv.2)
    cache

/-- `update_metadata(metadata)` of `container.py` / `storage_object.py`,
parameterised by the valid key beginnings (`["x-container-meta-",
"x-remove-container-meta-"]` for containers, `["x-object-meta-",
"x-remove-object-meta-"]` for storage objects).  Every key is lower-cased and
checked to start with one of the valid beginnings; the first invalid key
raises `ValueError` before any network request.  Otherwise one POST request
is issued; on success the cache-merge loop runs, and an `HttpError` surfaces
as a `ResponseError` with the cache untouched. -/
def update_metadata (validStarts : List String) (cache : List (String × String))
    (updates : List (String × String)) (resp : HttpResp) : MetaOutcome :=
  match updates.find? (fun kv => !(validStarts.any (fun p => pyStarts (pyLower kv.1) p))) with
  | some kv => ⟨.error (.valueError kv.1), cache, 0⟩
  | none =>
    match sendRequest resp with
    | .error e => ⟨.error (.responseError e.status), cache, 1⟩
    | .ok _ => ⟨.ok (), applyMetaUpdates cache updates, 1⟩

/-- The valid key beginnings of `Container.update_metadata`. -/
def containerMetaStarts : List String :=
  ["x-container-meta-", "x-remove-container-meta-"]

/-- The valid key beginnings of `StorageObject.update_metadata`. -/
def objectMetaStarts : List String :=
  ["x-object-meta-", "x-remove-object-meta-"]

/-! ## CloudfilesClient (`trrackspace/services/cloudfiles/client.py`) -/

/-- `CloudfilesClient.delete_container(name)`: issues a DELETE with no
`try/except`; any `HttpError` propagates to the `to_error` decorator, which
wraps it as a generic `ResponseError` carrying the status. -/
def delete_container (resp : HttpResp) : Except Err Unit :=
  match sendRequest resp with
  | .ok _ => .ok ()
  | .error e => .error (.responseError e.status)

/-! ## StorageObject (`trrackspace/services/cloudfiles/storage_object.py`) -/

/-- Cached state of a `StorageObject` relevant to `write`.  Python `None`
values are `Option.none`; `delete_at_timestamp` is an optional integer
timestamp. -/
structure StorageObjectState where
  name : String
  content_type : String
  metadata : List (String × String)
  delete_at_timestamp : Option Int
  etag : Option String
  content_length : Nat
  deriving Repr, DecidableEq

/-- Python truthiness of the `delete_at_timestamp` attribute
(`if self.delete_at_timestamp:`): `None` and `0` are falsy. -/
def pyTruthyInt : Option Int → Bool
  | none => false
  | some n => n ≠ 0

/-- Result of a `StorageObject.write` call: the outcome, the `etag` and
`content_length` fields after the call, and the number of PUT requests
issued. -/
structure WriteOutcome where
  outcome : Except Err Unit
  etag : Option String
  content_length : Nat
  requests : Nat
  deriving Repr

/-- The response-header loop of `StorageObject.write`: for each response
header in order, a header whose lower-cased name is `etag` is checked (when
`verify`) against the locally computed digest — a mismatch raises
`RuntimeError("Bad hash")` on the spot, a match (or `verify=False`) assigns
`self.etag`.  Returns the `etag` value reached when the exception fires, or
the final `etag` on normal completion. -/
def etagLoop (verify : Bool) (digest : String) :
    List (String × String) → Option String → Option String × Except Err Unit
  | [], et => (et, .ok ())
  | (n, v) :: rest, et =>
    if pyLower n = "etag" then
      if verify && pyLower v ≠ digest then (et, .error .badHash)
      else etagLoop verify digest rest (some v)
    else etagLoop verify digest rest et

/-- `StorageObject.write(data, verify)`.  `data` is the transmitted byte
string; `digestHex data` models `HashChunker(data).last_hash.hexdigest()`,
the hex digest of the transmitted bytes, and `data.length` models
`last_size`, the number of bytes transmitted.  The PUT response is modelled
by `resp`.

Control flow mirrors the source: when `self.delete_at_timestamp` is truthy
the header-construction branch references the undefined name `header`
(instead of `headers`), so Python raises `NameError` before `send_request`
is reached — `to_error` wraps it into a generic `RackspaceError`
(`Err.nameErrorHeader`), and no request is issued.  Otherwise the PUT is
issued: a transport `HttpError` becomes a `ResponseError`; on a 2xx response
the header loop runs, and only if it completes is `content_length` set to
the transmitted byte count. -/
def write (s : StorageObjectState) (data : String) (verify : Bool)
    (digestHex : String → String) (resp : HttpResp) : WriteOutcome :=
  if pyTruthyInt s.delete_at_timestamp then
    ⟨.error .nameErrorHeader, s.etag, s.content_length, 0⟩
  else
    match sendRequest resp with
    | .error e => ⟨.error (.responseError e.status), s.etag, s.content_length, 1⟩
    | .ok r =>
      match etagLoop verify (digestHex data) r.headers s.etag with
      | (et, .ok _) => ⟨.ok (), et, data.length, 1⟩
      | (et, .error e) => ⟨.error e, et, s.content_length, 1⟩

/-! ## Identity service client (`trrackspace/services/identity/client.py`)

The modules `catalog.py`, `token.py` and `user.py` referenced by the identity
client are not part of the provided sources; the minimal structure the client
needs from them (a wholesale-parsed catalog/user and a token exposing the
`id` taken from `access.token.id`) is modelled from the spec. -/

/-- A minimal JSON value, enough for identity responses. -/
inductive Json where
  | null
  | str (s : String)
  | num (n : Int)
  | obj (fields : List (String × Json))
  deriving Repr

/-- Python `dict.get(k)` on a JSON object: `None` when the value is not an
object or the key is absent. -/
def Json.get? : Json → String → Option Json
  | .obj fields, k => (fields.find? (fun p => p.1 = k)).map Prod.snd
  | _, _ => none

/-- Python truthiness of a JSON value (`if access:`): `None`, `""`, `0` and
`{}` are falsy. -/
def Json.truthy : Json → Bool
  | .null => false
  | .str s => s ≠ ""
  | .num n => n ≠ 0
  | .obj fields => !fields.isEmpty

/-- Truthiness of an optional JSON value (a `dict.get` result). -/
def jsonOptTruthy : Option Json → Bool
  | none => false
  | some j => j.truthy

/-- Modelled from the spec: `ServiceCatalog` (`catalog.py` is not under
`src/`).  The spec describes it as an immutable wholesale parse of the
response's `serviceCatalog` value, rebuilt on each authentication; it is
embedded as that raw value, `ServiceCatalog()` being the parse of nothing. -/
structure ServiceCatalog where
  raw : Option Json
  deriving Repr

/-- Modelled from the spec: `User` (`user.py` is not under `src/`), a
read-only snapshot of the response's `user` value. -/
structure User where
  raw : Option Json
  deriving Repr

/-- Modelled from the spec: `Token` (`token.py` is not under `src/`).  The
spec: `{id, expires}`, empty at construction, replaced wholesale on
successful authentication, with `access.token.id` used verbatim as the
`X-Auth-Token` value.  Only the `id` is relevant here. -/
structure Token where
  id : Option String
  deriving Repr, DecidableEq

/-- Modelled from the spec: `Token.from_json(access.get("token"))` extracts
`access.token.id`. -/
def Token.from_json (j : Option Json) : Token :=
  match j with
  | some t =>
    match t.get? "id" with
    | some (.str s) => ⟨some s⟩
    | _ => ⟨none⟩
  | none => ⟨none⟩

/-- Python truthiness of `self.token.id` (`if not self.token.id`): `None`
and `""` are falsy. -/
def tokenTruthy : Option String → Bool
  | none => false
  | some s => s ≠ ""

/-- State of an `IdentityServiceClient`: credentials plus the cached
catalog, user and token (their constructor defaults are the empty parses). -/
structure IdentityState where
  username : String
  api_key : Option String
  password : Option String
  catalog : ServiceCatalog
  user : User
  token : Token
  deriving Repr

/-- Result of an `authenticate` call: the returned auth headers (the
`X-Auth-Token` value is `token.id`, possibly `None`) or an error, the client
state after the call, and the number of network authentication calls
issued. -/
structure AuthOutcome where
  result : Except Err (Option String)
  state : IdentityState
  networkCalls : Nat
  deriving Repr

/-- `IdentityServiceClient.authenticate(force)`.  `backend` is the parsed
JSON body a network authentication call returns (both the api-key path and
the password path POST to `/tokens` and parse the body).

When the cached token id is falsy or `force` is set, one credential-based
call is made (api-key path when `api_key` is set, else password path when
`password` is set, else `ValueError` with no call); then, only when the
response's `access` value is truthy, `catalog`, `user` and `token` are all
three replaced from it.  In every non-raising case the returned header is
built from the (possibly updated) cached token id. -/
def authenticate (s : IdentityState) (backend : Json) (force : Bool) : AuthOutcome :=
  if !(tokenTruthy s.token.id) || force then
    if s.api_key.isSome || s.password.isSome then
      let result := backend
      let s' :=
        if jsonOptTruthy (result.get? "access") then
          match result.get? "access" with
          | some access =>
            { s with
              catalog := ⟨access.get? "serviceCatalog"⟩
              user := ⟨access.get? "user"⟩
              token := Token.from_json (access.get? "token") }
          | none => s
        else s
      ⟨.ok s'.token.id, s', 1⟩
    else
      ⟨.error (.valueError "no credentials"), s, 0⟩
  else
    ⟨.ok s.token.id, s, 0⟩

/-! ## Temp-URL signing (`StorageObject.temp_url`)

`temp_url` calls `hmac.new(key, hmac_data, hashlib.sha1).hexdigest()` and
`urllib.urlencode`; SHA-1, HMAC and url-encoding are embedded executably
below (bytes are `Nat` values `< 256`, 32-bit words are `Nat` values reduced
`% 2^32`). -/

/-- `2^32`. -/
def w32 : Nat := 4294967296

/-- 32-bit left rotation. -/
def rotl32 (n x : Nat) : Nat := ((x <<< n) ||| (x >>> (32 - n))) % w32

/-- The SHA-1 round function for round `t`. -/
def sha1F (t b c d : Nat) : Nat :=
  if t < 20 then (b &&& c) ||| ((b ^^^ 4294967295) &&& d)
  else if t < 40 then b ^^^ c ^^^ d
  else if t < 60 then (b &&& c) ||| (b &&& d) ||| (c &&& d)
  else b ^^^ c ^^^ d

/-- The SHA-1 round constant for round `t`. -/
def sha1K (t : Nat) : Nat :=
  if t < 20 then 1518500249
  else if t < 40 then 1859775393
  else if t < 60 then 2400959708
  else 3395469782

/-- Big-endian 32-bit words from a byte list. -/
def bytesToWords : List Nat → List Nat
  | b0 :: b1 :: b2 :: b3 :: rest =>
    (((b0 * 256 + b1) * 256 + b2) * 256 + b3) :: bytesToWords rest
  | _ => []

/-- Extend the 16 message-schedule words by `n` further words
(`w[i] = rotl1 (w[i-3] xor w[i-8] xor w[i-14] xor w[i-16])`). -/
def sha1Extend (ws : List Nat) : Nat → List Nat
  | 0 => ws
  | n + 1 =>
    let sz := ws.length
    sha1Extend
      (ws ++ [rotl32 1 (ws.getD (sz - 3) 0 ^^^ ws.getD (sz - 8) 0 ^^^
        ws.getD (sz - 14) 0 ^^^ ws.getD (sz - 16) 0)]) n

/-- The 80 SHA-1 rounds over the enumerated message schedule. -/
def sha1Rounds : List (Nat × Nat) → Nat × Nat × Nat × Nat × Nat → Nat × Nat × Nat × Nat × Nat
  | [], st => st
  | (t, wt) :: rest, (a, b, c, d, e) =>
    sha1Rounds rest
      ((rotl32 5 a + sha1F t b c d + e + sha1K t + wt) % w32, a, rotl32 30 b, c, d)

/-- One SHA-1 compression step on a 64-byte block. -/
def sha1Block (block : List Nat) (h : Nat × Nat × Nat × Nat × Nat) :
    Nat × Nat × Nat × Nat × Nat :=
  let ws := sha1Extend (bytesToWords block) 64
  let r := sha1Rounds ((List.range 80).zip ws) h
  ((h.1 + r.1) % w32, (h.2.1 + r.2.1) % w32, (h.2.2.1 + r.2.2.1) % w32,
   (h.2.2.2.1 + r.2.2.2.1) % w32, (h.2.2.2.2 + r.2.2.2.2) % w32)

/-- Process a padded message 64-byte block at a time; the first argument is
the number of blocks (the padded length is a multiple of 64). -/
def sha1Blocks : Nat → List Nat → Nat × Nat × Nat × Nat × Nat → Nat × Nat × Nat × Nat × Nat
  | 0, _, h => h
  | n + 1, bytes, h => sha1Blocks n (bytes.drop 64) (sha1Block (bytes.take 64) h)

/-- SHA-1 padding: append `0x80`, zeros to 56 mod 64, then the 64-bit
big-endian bit length. -/
def sha1Pad (msg : List Nat) : List Nat :=
  let len := msg.length
  let z := (120 - (len + 1) % 64) % 64
  let bitLen := len * 8
  msg ++ [128] ++ List.replicate z 0 ++
    [bitLen >>> 56 % 256, bitLen >>> 48 % 256, bitLen >>> 40 % 256,
     bitLen >>> 32 % 256, bitLen >>> 24 % 256, bitLen >>> 16 % 256,
     bitLen >>> 8 % 256, bitLen % 256]

/-- Big-endian bytes of a 32-bit word. -/
def wordBytes (x : Nat) : List Nat :=
  [x >>> 24 % 256, x >>> 16 % 256, x >>> 8 % 256, x % 256]

/-- The 20-byte SHA-1 digest of a byte list. -/
def sha1Bytes (msg : List Nat) : List Nat :=
  let padded := sha1Pad msg
  let h := sha1Blocks (padded.length / 64) padded
    (1732584193, 4023233417, 2562383102, 271733878, 3285377520)
  wordBytes h.1 ++ wordBytes h.2.1 ++ wordBytes h.2.2.1 ++
    wordBytes h.2.2.2.1 ++ wordBytes h.2.2.2.2

/-- Lower-case hex digit. -/
def hexDigit (n : Nat) : Char :=
  if n < 10 then Char.ofNat (48 + n) else Char.ofNat (87 + n)

/-- Lower-case hex string of a byte list (`hexdigest()`). -/
def bytesHex (bs : List Nat) : String :=
  ⟨(bs.map (fun b => [hexDigit (b / 16), hexDigit (b % 16)])).flatten⟩

/-- Bytes of a Python 2 `str` (each character is one byte). -/
def strBytes (s : String) : List Nat := s.data.map Char.toNat

/-- `hmac.new(key, msg, hashlib.sha1).digest()`: keys longer than the 64-byte
block are first hashed, the key is zero-padded to 64 bytes, and the digest is
`SHA1(opad ++ SHA1(ipad ++ msg))` with `ipad`/`opad` the `0x36`/`0x5c`
xor-masks. -/
def hmacSha1 (key msg : List Nat) : List Nat :=
  let k1 := if 64 < key.length then sha1Bytes key else key
  let k2 := k1 ++ List.replicate (64 - k1.length) 0
  sha1Bytes ((k2.map (fun b => b ^^^ 92)) ++
    sha1Bytes ((k2.map (fun b => b ^^^ 54)) ++ msg))

/-- `hmac.new(key, msg, hashlib.sha1).hexdigest()` on Python 2 strings. -/
def hmacSha1Hex (key msg : String) : String :=
  bytesHex (hmacSha1 (strBytes key) (strBytes msg))

/-- Upper-case hex digit (as used by `urllib.quote`). -/
def hexDigitUpper (n : Nat) : Char :=
  if n < 10 then Char.ofNat (48 + n) else Char.ofNat (55 + n)

/-- `urllib.quote_plus` with the default empty safe set: spaces become `+`,
letters/digits/`_.-` pass through, everything else is `%XX`-escaped. -/
def quotePlus (s : String) : String :=
  ⟨(s.data.map (fun c =>
    if c = ' ' then ['+']
    else if c.isAlphanum || c = '_' || c = '.' || c = '-' then [c]
    else ['%', hexDigitUpper (c.toNat / 16), hexDigitUpper (c.toNat % 16)])).flatten⟩

/-- `urllib.urlencode` over a sequence of key/value pairs. -/
def urlencode (params : List (String × String)) : String :=
  String.intercalate "&" (params.map (fun p => quotePlus p.1 ++ "=" ++ quotePlus p.2))

/-- Left-to-right scan of Python `str.split(sep)` for a non-empty separator:
`cur` is the current segment (reversed); at each non-overlapping occurrence
of `sep` the segment is closed.  `fuel` is the subject length (each step
consumes at least one character). -/
def pySplitAux (sep : List Char) : Nat → List Char → List Char → List (List Char)
  | _, [], cur => [cur.reverse]
  | 0, s, cur => [cur.reverse ++ s]
  | f + 1, c :: s, cur =>
    if listStarts sep (c :: s) then
      cur.reverse :: pySplitAux sep f ((c :: s).drop sep.length) []
    else
      pySplitAux sep f s (c :: cur)

/-- Python `s.split(sep)` for a non-empty separator. -/
def pySplit (s sep : String) : List String :=
  (pySplitAux sep.data s.data.length s.data []).map (fun l => ⟨l⟩)

/-- `StorageObject.temp_url(method, seconds, filename?)`.  The object's
`uri` and the account temp-url `key` are taken as inputs (the source reads
them from `self.uri` and `self.container.client.get_temp_url_key()`), and
`now` stands for `time.time()` so that the expiry `int(time.time() +
seconds)` is explicit.  The path is `uri.split(".com")[1]`, the signature is
the hex HMAC-SHA1 of `"<method>\n<expires>\n<path>"` under `key`, and the
result appends the url-encoded `temp_url_sig`/`temp_url_expires` (and
optional `filename`) parameters to the uri. -/
def temp_url (uri key method : String) (now seconds : Int) (filename : Option String) : String :=
  let path := (pySplit uri ".com").getD 1 ""
  let expires := now + seconds
  let hmac_data := method ++ "\n" ++ toString expires ++ "\n" ++ path
  let signature := hmacSha1Hex key hmac_data
  let urlparams := [("temp_url_sig", signature), ("temp_url_expires", toString expires)]
  let urlparams :=
    match filename with
    | some f => urlparams ++ [("filename", f)]
    | none => urlparams
  uri ++ "?" ++ urlencode urlparams

/-! ## Sanity checks of the SHA-1/HMAC embedding (FIPS 180 / RFC 2202 test
vectors), justifying that `hmacSha1Hex` is the digest Python's
`hmac.new(key, msg, hashlib.sha1).hexdigest()` computes. -/

set_option maxRecDepth 100000 in
theorem sha1_fips_vector :
    bytesHex (sha1Bytes (strBytes "abc")) = "a9993e364706816aba3e25717850c26c9cd0d89d" := by
  decide

set_option maxRecDepth 100000 in
theorem hmac_rfc2202_vector :
    hmacSha1Hex "Jefe" "what do ya want for nothing?" =
      "effcdf6ae5eb2fa2d27416d5f184df9c259a7c79" := by
  decide

/-! ## Claims -/

/-- Claim C9: for every `Container` state, whenever `cdn_enabled` is false the
`cdn_uri`, `cdn_ssl_uri` and `cdn_streaming_uri` accessors all read as absent
(`None`), regardless of the values cached in `_cdn_uri`, `_cdn_ssl_uri` and
`_cdn_streaming_uri`. -/
theorem cdn_uris_absent_when_disabled (c : Container) (h : c.cdn_enabled = false) :
    c.cdn_uri = none ∧ c.cdn_ssl_uri = none ∧ c.cdn_streaming_uri = none := by
  simp [Container.cdn_uri, Container.cdn_ssl_uri, Container.cdn_streaming_uri, h]

/-- Witness for C9: a container with all three CDN uri caches populated but
`cdn_enabled = false` reads all three accessors as `None`. -/
theorem cdn_uris_absent_when_disabled_witness :
    (Container.mk "c" false 3 7 [] (some "http://cdn") (some "https://ssl") (some "http://str")).cdn_enabled = false ∧
    ((Container.mk "c" false 3 7 [] (some "http://cdn") (some "https://ssl") (some "http://str")).cdn_uri = none ∧
     (Container.mk "c" false 3 7 [] (some "http://cdn") (some "https://ssl") (some "http://str")).cdn_ssl_uri = none ∧
     (Container.mk "c" false 3 7 [] (some "http://cdn") (some "https://ssl") (some "http://str")).cdn_streaming_uri = none) :=
  ⟨rfl, cdn_uris_absent_when_disabled _ rfl⟩

/-- Counterexample for C4: the claim says a non-2xx status other than 404
makes `delete_object` fail with a `ResponseError` carrying that status; on a
500 response the code instead swallows the `HttpError` and returns
normally. -/
theorem delete_object_500_returns_normally :
    delete_object "foo" ⟨500, [], ""⟩ = .ok () ∧
    ∀ e : Err, delete_object "foo" ⟨500, [], ""⟩ ≠ .error e := by
  exact ⟨rfl, fun e h => by simp [delete_object, sendRequest, is2xx] at h⟩

/-- Claim C4 (amended): `Container.delete_object(name)` fails with
`NoSuchObject` on a 404 response, succeeds silently on a 2xx response, and on
any other status also returns normally because the caught `HttpError` is
silently swallowed. -/
theorem delete_object_behavior (name : String) (resp : HttpResp) :
    (resp.status = 404 → delete_object name resp = .error (.noSuchObject name)) ∧
    (is2xx resp.status = true → delete_object name resp = .ok ()) ∧
    (resp.status ≠ 404 → delete_object name resp = .ok ()) := by
  refine ⟨fun h404 => ?_, fun h2xx => ?_, fun hne => ?_⟩
  · simp [delete_object, sendRequest, h404, is2xx]
  · simp [delete_object, sendRequest, h2xx]
  · by_cases h2xx : is2xx resp.status = true
    · simp [delete_object, sendRequest, h2xx]
    · simp [delete_object, sendRequest, h2xx, hne]

/-- Witness for C4: concrete 404, 204 and 503 responses. -/
theorem delete_object_behavior_witness :
    delete_object "foo" ⟨404, [], ""⟩ = .error (.noSuchObject "foo") ∧
    delete_object "foo" ⟨204, [], ""⟩ = .ok () ∧
    delete_object "foo" ⟨503, [], ""⟩ = .ok () :=
  ⟨(delete_object_behavior "foo" ⟨404, [], ""⟩).1 rfl,
   (delete_object_behavior "foo" ⟨204, [], ""⟩).2.1 (by decide),
   (delete_object_behavior "foo" ⟨503, [], ""⟩).2.2 (by decide)⟩

/-- Claim C5 (code bug): `CloudfilesClient.delete_container` has no
status-specific handling, so a 409 (container has objects) surfaces as a
generic `ResponseError` with status 409 — not `ContainerNotEmpty` — and a 404
as a generic `ResponseError` with status 404 — not `NoSuchContainer` —
contradicting both the claim and the method's own docstring (which lists
`ContainerNotEmpty`); the intended mapping exists only in
`Container.delete`. -/
theorem delete_container_generic_errors :
    delete_container ⟨409, [], ""⟩ = .error (.responseError 409) ∧
    delete_container ⟨404, [], ""⟩ = .error (.responseError 404) ∧
    Container.delete "c" ⟨409, [], ""⟩ = .error .containerNotEmpty ∧
    Container.delete "c" ⟨404, [], ""⟩ = .error (.noSuchContainer "c") :=
  ⟨rfl, rfl, rfl, rfl⟩

/-- Claim C10: for every storage object whose `delete_at_timestamp` is
truthy, `write` raises (a `NameError` on the undefined variable `header`,
wrapped into a generic `RackspaceError`) before issuing the PUT request, for
every data argument and every `verify` setting; no request is issued, so the
scheduled-delete timestamp is never transmitted. -/
theorem write_delete_at_raises_before_put (s : StorageObjectState) (data : String)
    (verify : Bool) (digestHex : String → String) (resp : HttpResp)
    (h : pyTruthyInt s.delete_at_timestamp = true) :
    write s data verify digestHex resp =
      ⟨.error .nameErrorHeader, s.etag, s.content_length, 0⟩ := by
  simp [write, h]

/-- Witness for C10: a concrete object with `delete_at_timestamp = 1700000000`
and a perfectly good backend response still fails with zero requests. -/
theorem write_delete_at_raises_before_put_witness :
    pyTruthyInt (StorageObjectState.mk "o" "text/plain" [] (some 1700000000) none 0).delete_at_timestamp = true ∧
    write (StorageObjectState.mk "o" "text/plain" [] (some 1700000000) none 0) "hello" true
        (fun _ => "5d41402abc4b2a76b9719d911017c592") ⟨201, [("etag", "5d41402abc4b2a76b9719d911017c592")], ""⟩ =
      ⟨.error .nameErrorHeader, none, 0, 0⟩ :=
  ⟨rfl, write_delete_at_raises_before_put _ _ _ _ _ rfl⟩

/-- Claim C7: temp-url signing is a deterministic pure function of
`(method, path, key, expires)`: the signature is the hex-encoded HMAC-SHA1,
keyed by the account temp-url key, of `"<method>\n<expires>\n<path>"` (where
`path = uri.split(".com")[1]` and `expires = int(now + seconds)`), attached
as the `temp_url_sig` and `temp_url_expires` query parameters; a second
evaluation at the same inputs yields the identical url. -/
theorem temp_url_signature (uri key method : String) (now seconds : Int)
    (filename : Option String) (path : String)
    (hpath : (pySplit uri ".com").getD 1 "" = path) :
    temp_url uri key method now seconds filename =
      uri ++ "?" ++ urlencode
        (("temp_url_sig",
            bytesHex (hmacSha1 (strBytes key)
              (strBytes (method ++ "\n" ++ toString (now + seconds) ++ "\n" ++ path)))) ::
          ("temp_url_expires", toString (now + seconds)) ::
          (match filename with
           | some f => [("filename", f)]
           | none => [])) ∧
    temp_url uri key method now seconds filename =
      temp_url uri key method now seconds filename := by
  subst hpath
  refine ⟨?_, rfl⟩
  cases filename <;> rfl

/-- Witness for C7: a concrete uri whose `.com`-split path is
`/v1/acct/cont/obj`. -/
theorem temp_url_signature_witness :
    (pySplit "https://storage101.dfw1.clouddrive.com/v1/acct/cont/obj" ".com").getD 1 "" =
      "/v1/acct/cont/obj" ∧
    temp_url "https://storage101.dfw1.clouddrive.com/v1/acct/cont/obj" "mykey" "GET" 1000 60 none =
      "https://storage101.dfw1.clouddrive.com/v1/acct/cont/obj" ++ "?" ++ urlencode
        (("temp_url_sig",
            bytesHex (hmacSha1 (strBytes "mykey")
              (strBytes ("GET" ++ "\n" ++ toString ((1000 : Int) + 60) ++ "\n" ++ "/v1/acct/cont/obj")))) ::
          ("temp_url_expires", toString ((1000 : Int) + 60)) :: []) ∧
    temp_url "https://storage101.dfw1.clouddrive.com/v1/acct/cont/obj" "mykey" "GET" 1000 60 none =
      temp_url "https://storage101.dfw1.clouddrive.com/v1/acct/cont/obj" "mykey" "GET" 1000 60 none := by
  refine ⟨by decide, ?_⟩
  exact temp_url_signature "https://storage101.dfw1.clouddrive.com/v1/acct/cont/obj"
    "mykey" "GET" 1000 60 none "/v1/acct/cont/obj" (by decide)

/-- One full-batch step of the `list_all_objects` loop: a batch not shorter
than `batch_size` is yielded and the loop recurses with the last entry's name
as the next marker. -/
theorem list_all_objects_step_full (backend : Option String → List ListEntry)
    (bs fuel : Nat) (marker : Option String) (objects : List ListEntry) (last : ListEntry)
    (hobj : backend marker = objects) (hlen : ¬ objects.length < bs)
    (hlast : objects.getLast? = some last) :
    list_all_objects backend bs (fuel + 1) marker =
      (objects ++ (list_all_objects backend bs fuel (some last.name)).1,
       marker :: (list_all_objects backend bs fuel (some last.name)).2.1,
       (list_all_objects backend bs fuel (some last.name)).2.2) := by
  simp only [list_all_objects, hobj, hlast, if_neg hlen]

/-- The terminating step of the `list_all_objects` loop: a batch shorter than
`batch_size` is yielded and the loop breaks. -/
theorem list_all_objects_step_short (backend : Option String → List ListEntry)
    (bs fuel : Nat) (marker : Option String) (objects : List ListEntry)
    (hobj : backend marker = objects) (hlen : objects.length < bs) :
    list_all_objects backend bs (fuel + 1) marker = (objects, [marker], true) := by
  simp only [list_all_objects, hobj, if_pos hlen]

/-- Claim C3: over any backend that pages a five-entry listing as
`[a,b]`, `[c,d]`, `[e]` (keyed by the `marker` parameter),
`list_all_objects` with `batch_size = 2` yields exactly `a,b,c,d,e` in
order, issues exactly 3 underlying `list_objects` calls whose markers are
`None`, `b.name`, `d.name`, and reaches its short-batch `break` — with any
fuel of at least 3, i.e. it terminates exactly at the short batch. -/
theorem list_all_objects_pages (a b c d e : ListEntry)
    (backend : Option String → List ListEntry)
    (h1 : backend none = [a, b])
    (h2 : backend (some b.name) = [c, d])
    (h3 : backend (some d.name) = [e]) :
    ∀ fuel, 3 ≤ fuel →
      list_all_objects backend 2 fuel none =
        ([a, b, c, d, e], [none, some b.name, some d.name], true) := by
  intro fuel hf
  obtain ⟨k, rfl⟩ : ∃ k, fuel = k + 3 := ⟨fuel - 3, by omega⟩
  rw [show k + 3 = k + 2 + 1 by omega,
    list_all_objects_step_full backend 2 (k + 2) none [a, b] b h1 (by simp) rfl,
    show k + 2 = k + 1 + 1 by omega,
    list_all_objects_step_full backend 2 (k + 1) (some b.name) [c, d] d h2 (by simp) rfl,
    show k + 1 = k + 1 by omega,
    list_all_objects_step_short backend 2 k (some d.name) [e] h3 (by simp)]
  rfl

/-- The concrete fake backend of the C3 witness: pages `[a,b]`, `[c,d]`,
`[e]`. -/
def c3Backend : Option String → List ListEntry
  | none => [⟨"a", ""⟩, ⟨"b", ""⟩]
  | some m => if m = "b" then [⟨"c", ""⟩, ⟨"d", ""⟩] else if m = "d" then [⟨"e", ""⟩] else []

/-- Witness for C3: the concrete backend run with fuel 3. -/
theorem list_all_objects_pages_witness :
    c3Backend none = [⟨"a", ""⟩, ⟨"b", ""⟩] ∧
    c3Backend (some "b") = [⟨"c", ""⟩, ⟨"d", ""⟩] ∧
    c3Backend (some "d") = [⟨"e", ""⟩] ∧
    list_all_objects c3Backend 2 3 none =
      ([⟨"a", ""⟩, ⟨"b", ""⟩, ⟨"c", ""⟩, ⟨"d", ""⟩, ⟨"e", ""⟩],
       [none, some "b", some "d"], true) :=
  ⟨rfl, by decide, by decide,
   list_all_objects_pages ⟨"a", ""⟩ ⟨"b", ""⟩ ⟨"c", ""⟩ ⟨"d", ""⟩ ⟨"e", ""⟩
     c3Backend rfl (by decide) (by decide) 3 (by decide)⟩

/-- Headers whose lower-cased name is not `etag` are skipped by the
response-header loop of `write`. -/
theorem etagLoop_skips (verify : Bool) (digest : String) (l rest : List (String × String))
    (hl : ∀ kv ∈ l, pyLower kv.1 ≠ "etag") (et : Option String) :
    etagLoop verify digest (l ++ rest) et = etagLoop verify digest rest et := by
  induction l generalizing et with
  | nil => rfl
  | cons kv l ih =>
    have hkv : pyLower kv.1 ≠ "etag" := hl kv (by simp)
    cases kv with
    | mk n v =>
      simp only [List.cons_append, etagLoop, if_neg hkv]
      exact ih (fun kv h => hl kv (by simp [h])) et

/-- Claim C2: for a `write(data, verify=True)` that reaches the network (no
truthy `delete_at_timestamp`), against a fresh object (`etag` unset) and a
2xx response carrying exactly one `ETag` header with value `v`: if the
lower-cased `v` differs from the locally computed digest of the transmitted
bytes, `write` fails with the integrity error (`badHash`, a generic
`RackspaceError` distinct from every transport `ResponseError`) and leaves
`etag` unset; if it matches, `write` succeeds, sets `etag` to `v` and
`content_length` to the number of bytes transmitted. -/
theorem write_verify_etag (s : StorageObjectState) (data : String)
    (digestHex : String → String) (pre post : List (String × String)) (n v : String)
    (resp : HttpResp)
    (hda : pyTruthyInt s.delete_at_timestamp = false)
    (hetag0 : s.etag = none)
    (hresp : resp.headers = pre ++ (n, v) :: post)
    (hn : pyLower n = "etag")
    (hpre : ∀ kv ∈ pre, pyLower kv.1 ≠ "etag")
    (hpost : ∀ kv ∈ post, pyLower kv.1 ≠ "etag")
    (h2xx : is2xx resp.status = true) :
    (pyLower v ≠ digestHex data →
      write s data true digestHex resp = ⟨.error .badHash, none, s.content_length, 1⟩ ∧
      ∀ st : Nat, Err.badHash ≠ Err.responseError st) ∧
    (pyLower v = digestHex data →
      write s data true digestHex resp = ⟨.ok (), some v, data.length, 1⟩) := by
  have hsend : sendRequest resp = .ok resp := by simp [sendRequest, h2xx]
  have hloop : ∀ et : Option String,
      etagLoop true (digestHex data) resp.headers et =
        if pyLower v = digestHex data then
          etagLoop true (digestHex data) post (some v)
        else (et, .error .badHash) := by
    intro et
    rw [hresp, etagLoop_skips true (digestHex data) pre ((n, v) :: post) hpre et]
    by_cases hmatch : pyLower v = digestHex data
    · simp [etagLoop, hn, hmatch]
    · simp [etagLoop, hn, hmatch]
  have hpost' : ∀ et : Option String,
      etagLoop true (digestHex data) post et = (et, .ok ()) := by
    intro et
    have := etagLoop_skips true (digestHex data) post [] hpost et
    simpa using this
  constructor
  · intro hmatch
    refine ⟨?_, fun st h => by cases h⟩
    simp only [write, hda, Bool.false_eq_true, if_false, hsend]
    rw [hloop s.etag, if_neg hmatch, hetag0]
  · intro hmatch
    simp only [write, hda, Bool.false_eq_true, if_false, hsend]
    rw [hloop s.etag, if_pos hmatch, hpost' (some v)]

/-- Witness for C2: a fresh object, transmitted data `"hello"`, a digest
function returning `"d1"` on it, and 201 responses whose single `ETag` header
is `"BAD"` (mismatch) respectively `"D1"` (match after lower-casing). -/
theorem write_verify_etag_witness :
    write (StorageObjectState.mk "o" "text/plain" [] none none 0) "hello" true
        (fun _ => "d1") ⟨201, [("Date", "x"), ("Etag", "BAD"), ("Server", "y")], ""⟩ =
      ⟨.error .badHash, none, 0, 1⟩ ∧
    write (StorageObjectState.mk "o" "text/plain" [] none none 0) "hello" true
        (fun _ => "d1") ⟨201, [("Date", "x"), ("Etag", "D1"), ("Server", "y")], ""⟩ =
      ⟨.ok (), some "D1", 5, 1⟩ :=
  ⟨((write_verify_etag (StorageObjectState.mk "o" "text/plain" [] none none 0) "hello"
      (fun _ => "d1") [("Date", "x")] [("Server", "y")] "Etag" "BAD"
      ⟨201, [("Date", "x"), ("Etag", "BAD"), ("Server", "y")], ""⟩
      rfl rfl rfl (by decide) (by decide) (by decide) (by decide)).1 (by decide)).1,
   (write_verify_etag (StorageObjectState.mk "o" "text/plain" [] none none 0) "hello"
      (fun _ => "d1") [("Date", "x")] [("Server", "y")] "Etag" "D1"
      ⟨201, [("Date", "x"), ("Etag", "D1"), ("Server", "y")], ""⟩
      rfl rfl rfl (by decide) (by decide) (by decide) (by decide)).2 (by decide)⟩

/-- A client state with previously stored catalog, user and token, used to
exercise `authenticate` against a malformed response. -/
def c1State : IdentityState :=
  ⟨"user", some "apikey", none, ⟨some (Json.obj [("old", Json.null)])⟩,
   ⟨some (Json.str "olduser")⟩, ⟨some "oldtoken"⟩⟩

/-- Counterexample for C1: on a response body lacking the `access` object,
`authenticate` leaves the stored catalog/user/token unchanged but does NOT
raise — it returns normally with the auth header built from the previously
stored token (the `if access:` guard simply skips the replacement and the
function falls through to `return auth_headers`). -/
theorem authenticate_missing_access_returns_normally :
    (authenticate c1State (Json.obj [("message", Json.str "ok")]) true).result =
      .ok (some "oldtoken") ∧
    (authenticate c1State (Json.obj [("message", Json.str "ok")]) true).state = c1State ∧
    (authenticate c1State (Json.obj [("message", Json.str "ok")]) true).networkCalls = 1 :=
  ⟨rfl, rfl, rfl⟩

/-- Claim C1 (amended): when a network authentication is triggered (falsy
token or `force`) with credentials configured, a successful response whose
`access` object is truthy atomically replaces catalog, user and token
together from it; a response lacking (or with a falsy) `access` leaves all
three unchanged, and `authenticate` returns normally with the header built
from the previously stored token rather than raising. -/
theorem authenticate_access_replacement (s : IdentityState) (backend : Json) (force : Bool)
    (htrig : tokenTruthy s.token.id = false ∨ force = true)
    (hcred : s.api_key.isSome ∨ s.password.isSome) :
    (∀ access, backend.get? "access" = some access → access.truthy = true →
      authenticate s backend force =
        ⟨.ok (Token.from_json (access.get? "token")).id,
         { s with catalog := ⟨access.get? "serviceCatalog"⟩,
                  user := ⟨access.get? "user"⟩,
                  token := Token.from_json (access.get? "token") }, 1⟩) ∧
    (jsonOptTruthy (backend.get? "access") = false →
      authenticate s backend force = ⟨.ok s.token.id, s, 1⟩) := by
  have hcond : (!(tokenTruthy s.token.id) || force) = true := by
    rcases htrig with h | h <;> simp [h]
  have hcred' : (s.api_key.isSome || s.password.isSome) = true := by
    rcases hcred with h | h <;> simp [h]
  constructor
  · intro access hacc htr
    simp [authenticate, hcond, hcred', hacc, jsonOptTruthy, htr]
  · intro hfalse
    simp [authenticate, hcond, hcred', hfalse]

/-- A fresh client state (empty token) for the C1 witness. -/
def c1FreshState : IdentityState :=
  ⟨"user", some "apikey", none, ⟨none⟩, ⟨none⟩, ⟨none⟩⟩

/-- The truthy `access` object of the C1 witness response. -/
def c1Access : Json :=
  Json.obj [("token", Json.obj [("id", Json.str "tok123")]),
            ("serviceCatalog", Json.obj [("cat", Json.null)]),
            ("user", Json.obj [("name", Json.str "u")])]

/-- Witness for C1: a fresh client against a well-formed response replaces
all three caches; the stored client of the counterexample state against an
`access`-less response keeps them and returns the old header. -/
theorem authenticate_access_replacement_witness :
    authenticate c1FreshState (Json.obj [("access", c1Access)]) false =
      ⟨.ok (Token.from_json (c1Access.get? "token")).id,
       { c1FreshState with catalog := ⟨c1Access.get? "serviceCatalog"⟩,
                           user := ⟨c1Access.get? "user"⟩,
                           token := Token.from_json (c1Access.get? "token") }, 1⟩ ∧
    authenticate c1State (Json.obj [("message", Json.str "ok")]) true =
      ⟨.ok c1State.token.id, c1State, 1⟩ :=
  ⟨(authenticate_access_replacement c1FreshState (Json.obj [("access", c1Access)]) false
      (Or.inl rfl) (Or.inl rfl)).1 c1Access rfl rfl,
   (authenticate_access_replacement c1State (Json.obj [("message", Json.str "ok")]) true
      (Or.inr rfl) (Or.inl rfl)).2 rfl⟩

/-- When a network authentication is triggered and credentials are
configured, `authenticate` issues exactly one network call, whatever the
response body. -/
theorem authenticate_calls_when_triggered (s : IdentityState) (backend : Json) (force : Bool)
    (hcond : (!(tokenTruthy s.token.id) || force) = true)
    (hcred : (s.api_key.isSome || s.password.isSome) = true) :
    (authenticate s backend force).networkCalls = 1 := by
  simp only [authenticate, hcond, if_true, hcred]

/-- A client whose token is already cached, with credentials configured. -/
def c8CachedState : IdentityState :=
  ⟨"user", some "apikey", none, ⟨none⟩, ⟨none⟩, ⟨some "cached"⟩⟩

/-- A client with a cached token and no credentials at all. -/
def c8NoCredState : IdentityState :=
  ⟨"user", none, none, ⟨none⟩, ⟨none⟩, ⟨some "cached"⟩⟩

/-- A well-formed authentication response for the C8 scenarios. -/
def c8Resp : Json :=
  Json.obj [("access", Json.obj [("token", Json.obj [("id", Json.str "fresh")])])]

/-- Counterexample for C8: for a client whose token id is already non-empty,
calling `authenticate()` twice with `force=false` issues ZERO network calls,
not exactly one as claimed; and `authenticate(force=true)` on a client with
neither api_key nor password raises `ValueError` without issuing any network
call, so it does not "always" issue one. -/
theorem authenticate_cached_twice_zero_calls :
    tokenTruthy c8CachedState.token.id = true ∧
    (authenticate c8CachedState c8Resp false).networkCalls +
      (authenticate (authenticate c8CachedState c8Resp false).state c8Resp false).networkCalls = 0 ∧
    (0 : Nat) ≠ 1 ∧
    (authenticate c8NoCredState c8Resp true).networkCalls = 0 :=
  ⟨rfl, rfl, by decide, rfl⟩

/-- Claim C8 (amended): a client whose token id is non-empty returns the
cached header with zero network calls under `force=false`; a client whose
token id is empty and which has credentials configured issues exactly one
network call on the first `authenticate()`, and — provided that call left a
non-empty token id — a second `authenticate()` issues none (so the pair
issues exactly one); `authenticate(force=true)` issues a network call
whenever credentials are configured. -/
theorem authenticate_call_discipline (s : IdentityState) (backend : Json) :
    (tokenTruthy s.token.id = true →
      authenticate s backend false = ⟨.ok s.token.id, s, 0⟩) ∧
    (tokenTruthy s.token.id = false → (s.api_key.isSome ∨ s.password.isSome) →
      (authenticate s backend false).networkCalls = 1 ∧
      (tokenTruthy (authenticate s backend false).state.token.id = true →
        (authenticate (authenticate s backend false).state backend false).networkCalls = 0)) ∧
    ((s.api_key.isSome ∨ s.password.isSome) →
      (authenticate s backend true).networkCalls = 1) := by
  have hcred' : (s.api_key.isSome ∨ s.password.isSome) →
      (s.api_key.isSome || s.password.isSome) = true := by
    intro h; rcases h with h | h <;> simp [h]
  refine ⟨fun hcached => ?_, fun hempty hcred => ⟨?_, fun hbecame => ?_⟩, fun hcred => ?_⟩
  · simp [authenticate, hcached]
  · exact authenticate_calls_when_triggered s backend false (by simp [hempty]) (hcred' hcred)
  · generalize hS : (authenticate s backend false).state = s2 at hbecame ⊢
    simp [authenticate, hbecame]
  · exact authenticate_calls_when_triggered s backend true (by simp) (hcred' hcred)

/-- Witness for C8: the cached client issues zero calls; a fresh client with
an api key issues one call against `c8Resp`, whose token id `"fresh"` makes
the second call free; `force=true` with credentials issues one call. -/
theorem authenticate_call_discipline_witness :
    authenticate c8CachedState c8Resp false = ⟨.ok (some "cached"), c8CachedState, 0⟩ ∧
    (authenticate c1FreshState c8Resp false).networkCalls = 1 ∧
    (authenticate (authenticate c1FreshState c8Resp false).state c8Resp false).networkCalls = 0 ∧
    (authenticate c8CachedState c8Resp true).networkCalls = 1 :=
  ⟨(authenticate_call_discipline c8CachedState c8Resp).1 rfl,
   ((authenticate_call_discipline c1FreshState c8Resp).2.1 rfl (Or.inl rfl)).1,
   ((authenticate_call_discipline c1FreshState c8Resp).2.1 rfl (Or.inl rfl)).2 rfl,
   (authenticate_call_discipline c8CachedState c8Resp).2.2 (Or.inl rfl)⟩

/-! ## Metadata update (claim C6) -/

/-- `listStarts p (p ++ t)` always holds. -/
theorem listStarts_self_append (p t : List Char) : listStarts p (p ++ t) = true := by
  induction p with
  | nil => rfl
  | cons c cs ih => simp [listStarts, ih]

/-- A pattern no longer than `q` only looks at `q` in `q ++ t`. -/
theorem listStarts_append_left (p q t : List Char) (h : p.length ≤ q.length) :
    listStarts p (q ++ t) = listStarts p q := by
  induction p generalizing q with
  | nil => simp [listStarts]
  | cons c cs ih =>
    cases q with
    | nil => simp at h
    | cons d ds =>
      simp only [List.cons_append, listStarts, List.append_eq]
      rw [ih ds (by simpa using h)]

/-- A match of a concatenated pattern is a match of its first part. -/
theorem listStarts_mono (p q s : List Char) (h : listStarts (p ++ q) s = true) :
    listStarts p s = true := by
  induction p generalizing s with
  | nil => rfl
  | cons c cs ih =>
    cases s with
    | nil => simp [listStarts] at h
    | cons d ds =>
      simp only [List.cons_append, listStarts, Bool.and_eq_true] at h ⊢
      exact ⟨h.1, ih ds h.2⟩

/-- `listStarts p s` holds exactly when `s` extends `p`. -/
theorem listStarts_iff (p s : List Char) : listStarts p s = true ↔ ∃ t, s = p ++ t := by
  induction p generalizing s with
  | nil => simp [listStarts]
  | cons c cs ih =>
    cases s with
    | nil => simp [listStarts]
    | cons d ds =>
      simp only [listStarts, Bool.and_eq_true, decide_eq_true_eq, ih, List.cons_append]
      constructor
      · rintro ⟨rfl, t, rfl⟩
        exact ⟨t, rfl⟩
      · rintro ⟨t, h⟩
        cases h
        exact ⟨rfl, t, rfl⟩

/-- The claim's description of the post-success cache merge: a key of the
form `removePfx ++ suffix` deletes `setPfx ++ suffix` from the cache, any
other key is upserted with its value (`setPfx`/`removePfx` being
`x-container-meta-`/`x-remove-container-meta-` for containers and
`x-object-meta-`/`x-remove-object-meta-` for storage objects). -/
def specMetaMerge (setPfx removePfx : String) (cache updates : List (String × String)) :
    List (String × String) :=
  updates.foldl
    (fun acc kv =>
      if pyStarts kv.1 removePfx then
        dictPop acc (setPfx ++ ⟨kv.1.data.drop removePfx.length⟩)
      else dictSet acc kv.1 kv.2)
    cache

/-- One step of the source's cache merge agrees with one step of the spec's
merge, for any key carrying one of the two exact prefixes.  `tail` is the
common `<scope>-meta-` part: `setPfx = "x-" ++ tail` and
`removePfx = "x-remove-" ++ tail`. -/
theorem metaStep_agree (setPfx removePfx : String) (tail : List Char)
    (hset : setPfx.data = "x-".data ++ tail)
    (hrm : removePfx.data = "x-remove-".data ++ tail)
    (hlow : tail.map Char.toLower = tail)
    (hno : listStarts "x-remove-".data ("x-".data ++ tail) = false)
    (hlen : 9 ≤ 2 + tail.length)
    (k v : String)
    (hk : pyStarts k setPfx = true ∨ pyStarts k removePfx = true)
    (acc : List (String × String)) :
    (if pyStarts (pyLower k) "x-remove-" then dictPop acc (stripRemove k)
     else dictSet acc k v) =
    (if pyStarts k removePfx then
      dictPop acc (setPfx ++ ⟨k.data.drop removePfx.length⟩)
     else dictSet acc k v) := by
  have hxlen : ("x-".data ++ tail).length = 2 + tail.length := by
    simp [List.length_append]
    omega
  rcases hk with hk | hk
  · -- k = setPfx ++ t : both sides upsert
    obtain ⟨t, ht⟩ := (listStarts_iff setPfx.data k.data).1 hk
    rw [hset] at ht
    have hlower : (pyLower k).data = ("x-".data ++ tail) ++ t.map Char.toLower := by
      show k.data.map Char.toLower = _
      rw [ht, List.map_append, List.map_append, hlow,
        show "x-".data.map Char.toLower = "x-".data from by decide]
    have hstart9 : listStarts "x-remove-".data k.data = false := by
      rw [ht, listStarts_append_left _ _ _ (by rw [hxlen]; exact hlen)]
      exact hno
    have hcond1 : pyStarts (pyLower k) "x-remove-" = false := by
      show listStarts "x-remove-".data (pyLower k).data = false
      rw [hlower, listStarts_append_left _ _ _ (by rw [hxlen]; exact hlen)]
      exact hno
    have hcond2 : pyStarts k removePfx = false := by
      show listStarts removePfx.data k.data = false
      rw [hrm]
      by_contra hcontra
      have htrue : listStarts ("x-remove-".data ++ tail) k.data = true := by
        cases hval : listStarts ("x-remove-".data ++ tail) k.data with
        | true => rfl
        | false => exact absurd hval hcontra
      have := listStarts_mono "x-remove-".data tail k.data htrue
      rw [hstart9] at this
      exact Bool.false_ne_true this
    rw [hcond1, hcond2]
    simp
  · -- k = removePfx ++ t : both sides delete, with the same target key
    obtain ⟨t, ht⟩ := (listStarts_iff removePfx.data k.data).1 hk
    rw [hrm] at ht
    have hlower : (pyLower k).data = "x-remove-".data ++ (tail ++ t.map Char.toLower) := by
      show k.data.map Char.toLower = _
      rw [ht, List.append_assoc, List.map_append, List.map_append, hlow,
        show "x-remove-".data.map Char.toLower = "x-remove-".data from by decide]
    have hcond1 : pyStarts (pyLower k) "x-remove-" = true := by
      show listStarts "x-remove-".data (pyLower k).data = true
      rw [hlower]
      exact listStarts_self_append _ _
    have hcond2 : pyStarts k removePfx = true := hk
    rw [hcond1, hcond2]
    have htarget : stripRemove k = setPfx ++ ⟨k.data.drop removePfx.length⟩ := by
      apply String.ext
      show k.data.take 2 ++ k.data.drop 9 = _
      have htake : k.data.take 2 = "x-".data := by
        rw [ht, show ("x-remove-".data ++ tail) ++ t =
          "x-".data ++ ("remove-".data ++ tail ++ t) from by
            rw [show "x-remove-".data = "x-".data ++ "remove-".data from by decide]
            simp [List.append_assoc]]
        exact List.take_left' (by decide)
      have hdrop : k.data.drop 9 = tail ++ t := by
        rw [ht, List.append_assoc]
        exact List.drop_left' (by decide)
      have hdroplen : k.data.drop removePfx.length = t := by
        rw [ht, show removePfx.length = removePfx.data.length from rfl, hrm]
        exact List.drop_left _ _
      rw [htake, hdrop, String.data_append, hset, hdroplen, List.append_assoc]
    rw [htarget]

/-- The whole cache-merge loop of the source agrees with the spec's merge on
updates all of whose keys carry one of the two exact prefixes. -/
theorem metaMerge_agree (setPfx removePfx : String) (tail : List Char)
    (hset : setPfx.data = "x-".data ++ tail)
    (hrm : removePfx.data = "x-remove-".data ++ tail)
    (hlow : tail.map Char.toLower = tail)
    (hno : listStarts "x-remove-".data ("x-".data ++ tail) = false)
    (hlen : 9 ≤ 2 + tail.length)
    (updates : List (String × String)) :
    (∀ kv ∈ updates, pyStarts kv.1 setPfx = true ∨ pyStarts kv.1 removePfx = true) →
    ∀ cache, applyMetaUpdates cache updates = specMetaMerge setPfx removePfx cache updates := by
  induction updates with
  | nil => intro _ cache; rfl
  | cons kv rest ih =>
    intro hkeys cache
    have hstep := metaStep_agree setPfx removePfx tail hset hrm hlow hno hlen
      kv.1 kv.2 (hkeys kv (by simp)) cache
    have h1 : applyMetaUpdates cache (kv :: rest) =
        applyMetaUpdates
          (if pyStarts (pyLower kv.1) "x-remove-" then dictPop cache (stripRemove kv.1)
           else dictSet cache kv.1 kv.2) rest := rfl
    have h2 : specMetaMerge setPfx removePfx cache (kv :: rest) =
        specMetaMerge setPfx removePfx
          (if pyStarts kv.1 removePfx then
            dictPop cache (setPfx ++ ⟨kv.1.data.drop removePfx.length⟩)
           else dictSet cache kv.1 kv.2) rest := rfl
    rw [h1, h2, hstep]
    exact ih (fun kv h => hkeys kv (by simp [h])) _

/-- A key carrying one of the two exact prefixes also passes the source's
lower-cased prefix validation. -/
theorem metaKey_lower_valid (setPfx removePfx : String) (tail : List Char)
    (hset : setPfx.data = "x-".data ++ tail)
    (hrm : removePfx.data = "x-remove-".data ++ tail)
    (hlow : tail.map Char.toLower = tail)
    (k : String)
    (hk : pyStarts k setPfx = true ∨ pyStarts k removePfx = true) :
    pyStarts (pyLower k) setPfx = true ∨ pyStarts (pyLower k) removePfx = true := by
  rcases hk with hk | hk
  · left
    obtain ⟨t, ht⟩ := (listStarts_iff setPfx.data k.data).1 hk
    show listStarts setPfx.data (pyLower k).data = true
    have hl : (pyLower k).data = setPfx.data ++ t.map Char.toLower := by
      show k.data.map Char.toLower = _
      rw [ht, List.map_append, hset, List.map_append, hlow,
        show "x-".data.map Char.toLower = "x-".data from by decide]
    rw [hl]
    exact listStarts_self_append _ _
  · right
    obtain ⟨t, ht⟩ := (listStarts_iff removePfx.data k.data).1 hk
    show listStarts removePfx.data (pyLower k).data = true
    have hl : (pyLower k).data = removePfx.data ++ t.map Char.toLower := by
      show k.data.map Char.toLower = _
      rw [ht, List.map_append, hrm, List.map_append, hlow,
        show "x-remove-".data.map Char.toLower = "x-remove-".data from by decide]
    rw [hl]
    exact listStarts_self_append _ _

/-- `update_metadata` with some key failing the prefix validation raises
`ValueError` before any network request, leaving the cache untouched. -/
theorem update_metadata_invalid (validStarts : List String)
    (cache updates : List (String × String)) (resp : HttpResp)
    (h : ∃ kv ∈ updates, ∀ p ∈ validStarts, pyStarts (pyLower kv.1) p = false) :
    (update_metadata validStarts cache updates resp).requests = 0 ∧
    (update_metadata validStarts cache updates resp).cache = cache ∧
    ∃ m, (update_metadata validStarts cache updates resp).outcome =
      .error (.valueError m) := by
  obtain ⟨kv, hmem, hall⟩ := h
  have hsome : (updates.find?
      (fun kv => !(validStarts.any (fun p => pyStarts (pyLower kv.1) p)))).isSome = true := by
    rw [List.find?_isSome]
    refine ⟨kv, hmem, ?_⟩
    simp only [Bool.not_eq_true', List.any_eq_false]
    intro p hp
    simp [hall p hp]
  obtain ⟨y, hy⟩ := Option.isSome_iff_exists.1 hsome
  refine ⟨?_, ?_, y.1, ?_⟩ <;> simp only [update_metadata, hy]

/-- `update_metadata` with all keys carrying one of the two exact prefixes
and a 2xx response succeeds with one request and merges the cache exactly as
the spec describes. -/
theorem update_metadata_valid (setPfx removePfx : String) (tail : List Char)
    (hset : setPfx.data = "x-".data ++ tail)
    (hrm : removePfx.data = "x-remove-".data ++ tail)
    (hlow : tail.map Char.toLower = tail)
    (hno : listStarts "x-remove-".data ("x-".data ++ tail) = false)
    (hlen : 9 ≤ 2 + tail.length)
    (cache updates : List (String × String)) (resp : HttpResp)
    (hkeys : ∀ kv ∈ updates, pyStarts kv.1 setPfx = true ∨ pyStarts kv.1 removePfx = true)
    (h2xx : is2xx resp.status = true) :
    update_metadata [setPfx, removePfx] cache updates resp =
      ⟨.ok (), specMetaMerge setPfx removePfx cache updates, 1⟩ := by
  have hnone : updates.find?
      (fun kv => !([setPfx, removePfx].any (fun p => pyStarts (pyLower kv.1) p))) = none := by
    rw [List.find?_eq_none]
    intro kv hmem
    have hvalid := metaKey_lower_valid setPfx removePfx tail hset hrm hlow kv.1 (hkeys kv hmem)
    simp only [Bool.not_eq_true', Bool.not_eq_false]
    rcases hvalid with h | h <;> simp [h]
  have hsend : sendRequest resp = .ok resp := by simp [sendRequest, h2xx]
  simp only [update_metadata, hnone, hsend]
  rw [metaMerge_agree setPfx removePfx tail hset hrm hlow hno hlen updates hkeys cache]

/-- Claim C6: for `Container.update_metadata` (and analogously
`StorageObject.update_metadata`): a metadata dict containing a key without
the `x-container-meta-`/`x-remove-container-meta-` (resp.
`x-object-meta-`/`x-remove-object-meta-`) prefix fails with `ValueError`
before any network request, leaving the cached map unchanged; a dict whose
keys all carry one of the exact prefixes, on a 2xx response, succeeds with
one request, each `x-remove-...-meta-<k>` key deleting `x-...-meta-<k>` from
the cache and each plain key upserting its value (`specMetaMerge`). -/
theorem update_metadata_contract (cache updates : List (String × String)) (resp : HttpResp) :
    ((∃ kv ∈ updates, ∀ p ∈ containerMetaStarts, pyStarts (pyLower kv.1) p = false) →
      (update_metadata containerMetaStarts cache updates resp).requests = 0 ∧
      (update_metadata containerMetaStarts cache updates resp).cache = cache ∧
      ∃ m, (update_metadata containerMetaStarts cache updates resp).outcome =
        .error (.valueError m)) ∧
    ((∀ kv ∈ updates, pyStarts kv.1 "x-container-meta-" = true ∨
        pyStarts kv.1 "x-remove-container-meta-" = true) →
      is2xx resp.status = true →
      update_metadata containerMetaStarts cache updates resp =
        ⟨.ok (), specMetaMerge "x-container-meta-" "x-remove-container-meta-" cache updates, 1⟩) ∧
    ((∃ kv ∈ updates, ∀ p ∈ objectMetaStarts, pyStarts (pyLower kv.1) p = false) →
      (update_metadata objectMetaStarts cache updates resp).requests = 0 ∧
      (update_metadata objectMetaStarts cache updates resp).cache = cache ∧
      ∃ m, (update_metadata objectMetaStarts cache updates resp).outcome =
        .error (.valueError m)) ∧
    ((∀ kv ∈ updates, pyStarts kv.1 "x-object-meta-" = true ∨
        pyStarts kv.1 "x-remove-object-meta-" = true) →
      is2xx resp.status = true →
      update_metadata objectMetaStarts cache updates resp =
        ⟨.ok (), specMetaMerge "x-object-meta-" "x-remove-object-meta-" cache updates, 1⟩) := by
  refine ⟨fun h => update_metadata_invalid _ _ _ _ h, fun hkeys h2xx => ?_,
    fun h => update_metadata_invalid _ _ _ _ h, fun hkeys h2xx => ?_⟩
  · exact update_metadata_valid "x-container-meta-" "x-remove-container-meta-"
      ("container-meta-".data) (by decide) (by decide) (by decide) (by decide) (by decide)
      cache updates resp hkeys h2xx
  · exact update_metadata_valid "x-object-meta-" "x-remove-object-meta-"
      ("object-meta-".data) (by decide) (by decide) (by decide) (by decide) (by decide)
      cache updates resp hkeys h2xx

/-- Witness for C6: a bogus key fails with no request and an unchanged
cache; removing `foo` and upserting `bar` against a 204 response merges the
concrete cache as the spec says; one object-prefix instance of each. -/
theorem update_metadata_contract_witness :
    (update_metadata containerMetaStarts [("x-container-meta-foo", "1")]
        [("bogus-key", "x")] ⟨204, [], ""⟩).requests = 0 ∧
    (update_metadata containerMetaStarts [("x-container-meta-foo", "1")]
        [("bogus-key", "x")] ⟨204, [], ""⟩).cache = [("x-container-meta-foo", "1")] ∧
    (∃ m, (update_metadata containerMetaStarts [("x-container-meta-foo", "1")]
        [("bogus-key", "x")] ⟨204, [], ""⟩).outcome = .error (.valueError m)) ∧
    update_metadata containerMetaStarts [("x-container-meta-foo", "1")]
        [("x-remove-container-meta-foo", "True"), ("x-container-meta-bar", "baz")] ⟨204, [], ""⟩ =
      ⟨.ok (), specMetaMerge "x-container-meta-" "x-remove-container-meta-"
        [("x-container-meta-foo", "1")]
        [("x-remove-container-meta-foo", "True"), ("x-container-meta-bar", "baz")], 1⟩ ∧
    update_metadata objectMetaStarts [] [("x-object-meta-a", "b")] ⟨202, [], ""⟩ =
      ⟨.ok (), specMetaMerge "x-object-meta-" "x-remove-object-meta-" []
        [("x-object-meta-a", "b")], 1⟩ := by
  obtain ⟨h1, h2, h3⟩ := (update_metadata_contract [("x-container-meta-foo", "1")]
    [("bogus-key", "x")] ⟨204, [], ""⟩).1 (by decide)
  refine ⟨h1, h2, h3, ?_, ?_⟩
  · exact (update_metadata_contract [("x-container-meta-foo", "1")]
      [("x-remove-container-meta-foo", "True"), ("x-container-meta-bar", "baz")]
      ⟨204, [], ""⟩).2.1 (by decide) (by decide)
  · exact (update_metadata_contract [] [("x-object-meta-a", "b")] ⟨202, [], ""⟩).2.2.2
      (by decide) (by decide)

end Trrackspace
